import Mathlib

/-!
Shallow embedding of the etherparse core under verification:
the raw IPv6 extension header codec (src/internet/ipv6_raw_extension.rs)
and the ICMPv6 message codec (src/transport/icmp6.rs).

Bytes are modelled as `Nat` values expected to be below 256; machine
casts are modelled with explicit `% 2 ^ w`. Fallible operations return
`Except`. Byte-order conversion of an in-memory integer (`to_be`) is
modelled as the identity on values, since memory layout is outside the
value-level model; the big-endian byte decompositions that feed the
checksum words are spelled out explicitly.
-/

set_option maxRecDepth 100000

/-- Value error variants used by the embedded operations. The umbrella
enum lives outside the modelled sources; the variants and their payloads
are taken from the construction sites in the modelled code. -/
inductive ValueError where
  | Ipv6PayloadLengthTooLarge (length : Nat)
  | Ipv6ExtensionPayloadTooSmall (length : Nat)
  | Ipv6ExtensionPayloadTooLarge (length : Nat)
  | Ipv6ExtensionPayloadLengthUnaligned (length : Nat)
  deriving DecidableEq

/-- Read error variants used by the embedded operations. The umbrella
enum lives outside the modelled sources; the variant carries the
minimum number of bytes the decoder required. -/
inductive ReadError where
  | UnexpectedEndOfSlice (min_len : Nat)
  deriving DecidableEq

/-- Boolean success test for an `Except` value. -/
def exOk {ε : Type} {α : Type} (e : Except ε α) : Bool :=
  match e with
  | .ok _ => true
  | .error _ => false

/-- Big-endian u32 from four bytes, as in `u32::from_be_bytes`. -/
def u32_from_be_bytes (f : Nat × Nat × Nat × Nat) : Nat :=
  ((f.1 * 256 + f.2.1) * 256 + f.2.2.1) * 256 + f.2.2.2

/-- Big-endian four-byte decomposition of a u32 value, as in
`u32::to_be_bytes`. -/
def u32_to_be_bytes (n : Nat) : Nat × Nat × Nat × Nat :=
  (n / 16777216 % 256, n / 65536 % 256, n / 256 % 256, n % 256)

/-- ICMPv6 type value of a destination unreachable message. -/
def icmpv6.TYPE_DST_UNREACH : Nat := 1

/-- ICMPv6 type value of a packet too big message. -/
def icmpv6.TYPE_PACKET_TOO_BIG : Nat := 2

/-- ICMPv6 type value of a time exceeded message. -/
def icmpv6.TYPE_TIME_EXCEEDED : Nat := 3

/-- ICMPv6 type value of a parameter problem message. -/
def icmpv6.TYPE_PARAM_PROB : Nat := 4

/-- ICMPv6 type value of an echo request message. -/
def icmpv6.TYPE_ECHO_REQUEST : Nat := 128

/-- ICMPv6 type value of an echo reply message. -/
def icmpv6.TYPE_ECHO_REPLY : Nat := 129

/-- ICMPv6 destination unreachable code for no route to destination. -/
def icmpv6.CODE_DST_UNREACH_NOROUTE : Nat := 0

/-- ICMPv6 destination unreachable code for administratively prohibited. -/
def icmpv6.CODE_DST_UNREACH_PROHIBITED : Nat := 1

/-- ICMPv6 destination unreachable code for beyond scope of source address. -/
def icmpv6.CODE_DST_UNREACH_BEYONDSCOPE : Nat := 2

/-- ICMPv6 destination unreachable code for address unreachable. -/
def icmpv6.CODE_DST_UNREACH_ADDR : Nat := 3

/-- ICMPv6 destination unreachable code for port unreachable. -/
def icmpv6.CODE_DST_UNREACH_PORT : Nat := 4

/-- ICMPv6 destination unreachable code for source address failed policy. -/
def icmpv6.CODE_DST_UNREACH_SOURCE_ADDRESS_FAILED_POLICY : Nat := 5

/-- ICMPv6 destination unreachable code for reject route to destination. -/
def icmpv6.CODE_DST_UNREACH_REJECT_ROUTE_TO_DEST : Nat := 6

/-- ICMPv6 time exceeded code for hop limit exceeded in transit. -/
def icmpv6.CODE_TIME_EXCEEDED_HOP_LIMIT_EXCEEDED : Nat := 0

/-- ICMPv6 time exceeded code for fragment reassembly time exceeded. -/
def icmpv6.CODE_TIME_EXCEEDED_FRAGMENT_REASSEMBLY_TIME_EXCEEDED : Nat := 1

/-- The sub-reason enum of a destination unreachable ICMPv6 message,
with a raw fallback for unknown codes. -/
inductive Icmp6DestUnreachable where
  | Raw (code : Nat) (four_bytes : Nat × Nat × Nat × Nat)
  | NoRoute
  | Prohibited
  | BeyondScope
  | Address
  | Port
  | SourceAddressFailedPolicy
  | RejectRoute
  deriving DecidableEq

/-- Decode of the destination unreachable sub-reason from the code byte
and the four type-specific bytes, mirroring the match over the code
constants in the source. -/
def Icmp6DestUnreachable.from_bytes (code : Nat) (four_bytes : Nat × Nat × Nat × Nat) :
    Icmp6DestUnreachable :=
  if code = icmpv6.CODE_DST_UNREACH_NOROUTE then .NoRoute
  else if code = icmpv6.CODE_DST_UNREACH_PROHIBITED then .Prohibited
  else if code = icmpv6.CODE_DST_UNREACH_BEYONDSCOPE then .BeyondScope
  else if code = icmpv6.CODE_DST_UNREACH_ADDR then .Address
  else if code = icmpv6.CODE_DST_UNREACH_PORT then .Port
  else if code = icmpv6.CODE_DST_UNREACH_SOURCE_ADDRESS_FAILED_POLICY then .SourceAddressFailedPolicy
  else if code = icmpv6.CODE_DST_UNREACH_REJECT_ROUTE_TO_DEST then .RejectRoute
  else .Raw code four_bytes

/-- The code byte of a destination unreachable sub-reason. -/
def Icmp6DestUnreachable.code : Icmp6DestUnreachable → Nat
  | .Raw code _ => code
  | .NoRoute => icmpv6.CODE_DST_UNREACH_NOROUTE
  | .Prohibited => icmpv6.CODE_DST_UNREACH_PROHIBITED
  | .BeyondScope => icmpv6.CODE_DST_UNREACH_BEYONDSCOPE
  | .Address => icmpv6.CODE_DST_UNREACH_ADDR
  | .Port => icmpv6.CODE_DST_UNREACH_PORT
  | .SourceAddressFailedPolicy => icmpv6.CODE_DST_UNREACH_SOURCE_ADDRESS_FAILED_POLICY
  | .RejectRoute => icmpv6.CODE_DST_UNREACH_REJECT_ROUTE_TO_DEST

/-- Encode of a destination unreachable sub-reason back to the code byte
and the four type-specific bytes; named variants zero-fill the unused
four bytes. -/
def Icmp6DestUnreachable.to_bytes : Icmp6DestUnreachable → Nat × (Nat × Nat × Nat × Nat)
  | .Raw code four_bytes => (code, four_bytes)
  | .NoRoute => (icmpv6.CODE_DST_UNREACH_NOROUTE, (0, 0, 0, 0))
  | .Prohibited => (icmpv6.CODE_DST_UNREACH_PROHIBITED, (0, 0, 0, 0))
  | .BeyondScope => (icmpv6.CODE_DST_UNREACH_BEYONDSCOPE, (0, 0, 0, 0))
  | .Address => (icmpv6.CODE_DST_UNREACH_ADDR, (0, 0, 0, 0))
  | .Port => (icmpv6.CODE_DST_UNREACH_PORT, (0, 0, 0, 0))
  | .SourceAddressFailedPolicy =>
      (icmpv6.CODE_DST_UNREACH_SOURCE_ADDRESS_FAILED_POLICY, (0, 0, 0, 0))
  | .RejectRoute => (icmpv6.CODE_DST_UNREACH_REJECT_ROUTE_TO_DEST, (0, 0, 0, 0))

/-- Code values of an ICMPv6 time exceeded message, with a raw fallback. -/
inductive Icmp6TimeExceededCode where
  | Raw (code : Nat)
  | HopLimitExceeded
  | FragmentReassemblyTimeExceeded
  deriving DecidableEq

/-- Decode of the time exceeded code byte, mirroring the From u8 impl. -/
def Icmp6TimeExceededCode.from_u8 (code : Nat) : Icmp6TimeExceededCode :=
  if code = icmpv6.CODE_TIME_EXCEEDED_HOP_LIMIT_EXCEEDED then .HopLimitExceeded
  else if code = icmpv6.CODE_TIME_EXCEEDED_FRAGMENT_REASSEMBLY_TIME_EXCEEDED then
    .FragmentReassemblyTimeExceeded
  else .Raw code

/-- Encode of the time exceeded code back to a byte, mirroring the
From impl towards u8. -/
def Icmp6TimeExceededCode.to_u8 : Icmp6TimeExceededCode → Nat
  | .Raw code => code
  | .HopLimitExceeded => icmpv6.CODE_TIME_EXCEEDED_HOP_LIMIT_EXCEEDED
  | .FragmentReassemblyTimeExceeded =>
      icmpv6.CODE_TIME_EXCEEDED_FRAGMENT_REASSEMBLY_TIME_EXCEEDED

/-- Code values of an ICMPv6 parameter problem message; only the raw
variant exists in the source. -/
inductive Icmp6ParameterProblemCode where
  | Raw (code : Nat)
  deriving DecidableEq

/-- Decode of the parameter problem code byte, mirroring the From u8
impl (everything maps to the raw variant). -/
def Icmp6ParameterProblemCode.from_u8 (code : Nat) : Icmp6ParameterProblemCode :=
  .Raw code

/-- Encode of the parameter problem code back to a byte. -/
def Icmp6ParameterProblemCode.to_u8 : Icmp6ParameterProblemCode → Nat
  | .Raw code => code

/-- Modelled from the spec: the external echo header type (not under
src). It exposes identifier and sequence number and a four-byte
big-endian encode and decode, per the spec table entry for echo
messages (identifier + sequence number). -/
structure IcmpEchoHeader where
  id : Nat
  seq : Nat
  deriving DecidableEq

/-- Modelled from the spec: decode of the echo header from the four
type-specific bytes, identifier then sequence number, big-endian. -/
def IcmpEchoHeader.from_bytes (f : Nat × Nat × Nat × Nat) : IcmpEchoHeader :=
  { id := f.1 * 256 + f.2.1, seq := f.2.2.1 * 256 + f.2.2.2 }

/-- Modelled from the spec: encode of the echo header to the four
type-specific bytes, identifier then sequence number, big-endian. -/
def IcmpEchoHeader.to_bytes (e : IcmpEchoHeader) : Nat × Nat × Nat × Nat :=
  (e.id / 256 % 256, e.id % 256, e.seq / 256 % 256, e.seq % 256)

/-- The tagged union over the first byte of an ICMPv6 header, with a
raw fallback for unknown types. -/
inductive Icmp6Type where
  | Raw (icmp_type : Nat) (icmp_code : Nat) (four_bytes : Nat × Nat × Nat × Nat)
  | DestinationUnreachable (code : Icmp6DestUnreachable)
  | PacketTooBig (mtu : Nat)
  | TimeExceeded (code : Icmp6TimeExceededCode)
  | ParameterProblem (code : Icmp6ParameterProblemCode) (pointer : Nat)
  | EchoRequest (echo : IcmpEchoHeader)
  | EchoReply (echo : IcmpEchoHeader)
  deriving DecidableEq

/-- Decode of the ICMPv6 tagged union from the type byte, the code byte
and the four type-specific bytes, mirroring the match over the type
constants in the source. -/
def Icmp6Type.from_bytes (icmp_type icmp_code : Nat) (four_bytes : Nat × Nat × Nat × Nat) :
    Icmp6Type :=
  if icmp_type = icmpv6.TYPE_DST_UNREACH then
    .DestinationUnreachable (Icmp6DestUnreachable.from_bytes icmp_code four_bytes)
  else if icmp_type = icmpv6.TYPE_PACKET_TOO_BIG then
    .PacketTooBig (u32_from_be_bytes four_bytes)
  else if icmp_type = icmpv6.TYPE_TIME_EXCEEDED then
    .TimeExceeded (Icmp6TimeExceededCode.from_u8 icmp_code)
  else if icmp_type = icmpv6.TYPE_PARAM_PROB then
    .ParameterProblem (Icmp6ParameterProblemCode.from_u8 icmp_code) (u32_from_be_bytes four_bytes)
  else if icmp_type = icmpv6.TYPE_ECHO_REQUEST then
    .EchoRequest (IcmpEchoHeader.from_bytes four_bytes)
  else if icmp_type = icmpv6.TYPE_ECHO_REPLY then
    .EchoReply (IcmpEchoHeader.from_bytes four_bytes)
  else .Raw icmp_type icmp_code four_bytes

/-- Encode of the ICMPv6 tagged union to the type byte, the code byte
and the four type-specific bytes, mirroring the source match arm by
arm (destination unreachable and time exceeded zero-fill the four
bytes, packet too big and echo hard-code a zero code byte). -/
def Icmp6Type.to_bytes : Icmp6Type → Nat × Nat × (Nat × Nat × Nat × Nat)
  | .Raw icmp_type icmp_code four_bytes => (icmp_type, icmp_code, four_bytes)
  | .DestinationUnreachable code => (icmpv6.TYPE_DST_UNREACH, code.code, (0, 0, 0, 0))
  | .PacketTooBig mtu => (icmpv6.TYPE_PACKET_TOO_BIG, 0, u32_to_be_bytes mtu)
  | .TimeExceeded code => (icmpv6.TYPE_TIME_EXCEEDED, code.to_u8, (0, 0, 0, 0))
  | .ParameterProblem code pointer =>
      (icmpv6.TYPE_PARAM_PROB, code.to_u8, u32_to_be_bytes pointer)
  | .EchoRequest echo => (icmpv6.TYPE_ECHO_REQUEST, 0, echo.to_bytes)
  | .EchoReply echo => (icmpv6.TYPE_ECHO_REPLY, 0, echo.to_bytes)

/-- Modelled from the spec: sum of a byte list as 16-bit big-endian
words (byte pairs); a trailing odd byte is the high byte of a final
word with a zero low byte. This is the word decomposition used by the
external ones complement accumulator, which is not under src. -/
def wordSum : List Nat → Nat
  | [] => 0
  | [a] => a * 256
  | a :: b :: rest => (a * 256 + b) + wordSum rest

/-- Modelled from the spec: accumulator step adding one 16-bit word
given as two bytes. -/
def add_2bytes (s a b : Nat) : Nat :=
  s + (a * 256 + b)

/-- Modelled from the spec: accumulator step adding four bytes as two
16-bit words. -/
def add_4bytes (s : Nat) (f : Nat × Nat × Nat × Nat) : Nat :=
  add_2bytes (add_2bytes s f.1 f.2.1) f.2.2.1 f.2.2.2

/-- Modelled from the spec: accumulator step adding sixteen bytes
(an IPv6 address) as eight 16-bit words. -/
def add_16bytes (s : Nat) (l : List Nat) : Nat :=
  s + wordSum l

/-- Modelled from the spec: accumulator step adding a whole byte slice
as 16-bit big-endian words. -/
def add_slice (s : Nat) (l : List Nat) : Nat :=
  s + wordSum l

/-- End-around-carry fold of an accumulated sum down to 16 bits. -/
def foldCarry (n : Nat) : Nat :=
  if h : 65535 < n then foldCarry (n % 65536 + n / 65536) else n
  termination_by n
  decreasing_by omega

/-- Modelled from the spec: finalize the accumulator by folding the
end-around carries and taking the bitwise complement of the resulting
16-bit value. -/
def onesComplement (n : Nat) : Nat :=
  65535 - foldCarry n

/-- Value-level model of the conversion of a u16 to big-endian byte
order: the numeric value is unchanged, only the memory representation
(outside this model) differs. -/
def u16_to_be (n : Nat) : Nat :=
  n

/-- Modelled from the spec: the IPv6 base header at the interface
boundary, exposing the 16-byte source and destination addresses used
by the checksum computation. The full header codec is not under src. -/
structure Ipv6Header where
  source : List Nat
  destination : List Nat
  deriving DecidableEq

/-- Modelled from the spec: the IP protocol number constant for ICMPv6
(58). -/
def ip_number.IPV6_ICMP : Nat := 58

/-- Modelled from the spec: the serialized size of the sibling ICMPv4
header (8 bytes), the constant the checksum length guard borrows. -/
def Icmp4Header.SERIALIZED_SIZE : Nat := 8

/-- The owned ICMPv6 header: tagged union message type plus the stored
checksum field. -/
structure Icmp6Header where
  icmp_type : Icmp6Type
  icmp_chksum : Nat
  deriving DecidableEq

/-- Serialized size of the ICMPv6 header proper (8 bytes). -/
def Icmp6Header.SERIALIZED_SIZE : Nat := 8

/-- Serialized length of the ICMPv6 header in bytes. -/
def Icmp6Header.header_len (_ : Icmp6Header) : Nat := 8

/-- Construction of an ICMPv6 header with the checksum field zeroed. -/
def Icmp6Header.new (icmp_type : Icmp6Type) : Icmp6Header :=
  { icmp_type := icmp_type, icmp_chksum := 0 }

/-- The u32 maximum value, as in `std::u32::MAX`. -/
def u32.MAX : Nat := 4294967295

/-- The local guard constant of the checksum computation: the u32
maximum minus the borrowed ICMPv4 header size. -/
def Icmp6Header.MAX_PAYLOAD_LENGTH : Nat := u32.MAX - Icmp4Header.SERIALIZED_SIZE

/-- The ICMPv6 checksum over the IPv6 pseudo header, the ICMPv6 header
fields and the payload, translated statement by statement from the
source: guard on the payload length against the borrowed ICMPv4
constant, then accumulate source address, destination address, the
word {0, protocol 58}, the message length cast to u16 in big-endian
byte order, the word {type, code}, the four type-specific bytes and
the payload, and finalize. The tuple destructuring of the encoded
type is modelled with projections. -/
def Icmp6Header.calc_checksum_ipv6 (self : Icmp6Header) (ip_header : Ipv6Header)
    (payload : List Nat) : Except ValueError Nat :=
  if Icmp6Header.MAX_PAYLOAD_LENGTH < payload.length then
    Except.error (ValueError.Ipv6PayloadLengthTooLarge payload.length)
  else
    let tcf := self.icmp_type.to_bytes
    let msg_len := payload.length + Icmp6Header.SERIALIZED_SIZE
    let msg_len_u16 := msg_len % 65536
    Except.ok (u16_to_be (onesComplement (
      add_slice
        (add_4bytes
          (add_2bytes
            (add_2bytes
              (add_2bytes
                (add_16bytes (add_16bytes 0 ip_header.source) ip_header.destination)
                0 ip_number.IPV6_ICMP)
              (msg_len_u16 / 256) (msg_len_u16 % 256))
            tcf.1 tcf.2.1)
          tcf.2.2)
        payload)))

/-- The borrowed view over an ICMPv6 header: a byte slice narrowed to
the 8 header bytes. -/
structure Icmp6HeaderSlice where
  slice : List Nat
  deriving DecidableEq

/-- Validating construction of the ICMPv6 header view: requires at
least 8 bytes, then narrows the slice to exactly 8 bytes. -/
def Icmp6HeaderSlice.from_slice (slice : List Nat) : Except ReadError Icmp6HeaderSlice :=
  if slice.length < Icmp6Header.SERIALIZED_SIZE then
    Except.error (ReadError.UnexpectedEndOfSlice Icmp6Header.SERIALIZED_SIZE)
  else
    Except.ok { slice := slice.take Icmp6Header.SERIALIZED_SIZE }

/-- Decode of the tagged union from the view: type byte, code byte and
bytes four to seven. -/
def Icmp6HeaderSlice.icmp_type (self : Icmp6HeaderSlice) : Icmp6Type :=
  Icmp6Type.from_bytes (self.slice.getD 0 0) (self.slice.getD 1 0)
    (self.slice.getD 4 0, self.slice.getD 5 0, self.slice.getD 6 0, self.slice.getD 7 0)

/-- The code accessor of the view, translated exactly from the source:
it reads the byte at index 0 of the narrowed slice. -/
def Icmp6HeaderSlice.icmp_code (self : Icmp6HeaderSlice) : Nat :=
  self.slice.getD 0 0

/-- The checksum accessor of the view: big-endian u16 from the bytes at
indices 2 and 3 (the external big-endian read helper is not under src
and is modelled from the spec wire layout). -/
def Icmp6HeaderSlice.icmp_chksum (self : Icmp6HeaderSlice) : Nat :=
  self.slice.getD 2 0 * 256 + self.slice.getD 3 0

/-- Decode of all fields of the view into an owned ICMPv6 header. -/
def Icmp6HeaderSlice.to_header (self : Icmp6HeaderSlice) : Icmp6Header :=
  { icmp_type := self.icmp_type, icmp_chksum := self.icmp_chksum }

/-- Minimum length of a raw IPv6 extension header payload. -/
def Ipv6RawExtensionHeader.MIN_PAYLOAD_LEN : Nat := 6

/-- Maximum length of a raw IPv6 extension header payload
(255 * 8 + 6 = 2046). -/
def Ipv6RawExtensionHeader.MAX_PAYLOAD_LEN : Nat := 255 * 8 + 6

/-- The owned raw IPv6 extension header: next header protocol number,
derived length byte (header length in 8-octet units minus the first
unit) and the fixed-capacity payload buffer of MAX_PAYLOAD_LEN bytes. -/
structure Ipv6RawExtensionHeader where
  next_header : Nat
  header_length : Nat
  payload_buffer : List Nat
  deriving DecidableEq

/-- Validating construction of a raw IPv6 extension header, translated
branch by branch from the source: reject a payload shorter than 6
bytes, longer than 2046 bytes, or whose length plus 2 is not a
multiple of 8; otherwise derive the length byte and copy the payload
into the zeroed fixed-capacity buffer. -/
def Ipv6RawExtensionHeader.new_raw (next_header : Nat) (payload : List Nat) :
    Except ValueError Ipv6RawExtensionHeader :=
  if payload.length < Ipv6RawExtensionHeader.MIN_PAYLOAD_LEN then
    Except.error (ValueError.Ipv6ExtensionPayloadTooSmall payload.length)
  else if payload.length > Ipv6RawExtensionHeader.MAX_PAYLOAD_LEN then
    Except.error (ValueError.Ipv6ExtensionPayloadTooLarge payload.length)
  else if (payload.length + 2) % 8 ≠ 0 then
    Except.error (ValueError.Ipv6ExtensionPayloadLengthUnaligned payload.length)
  else
    Except.ok
      { next_header := next_header
        header_length := (payload.length - 6) / 8
        payload_buffer :=
          payload ++ List.replicate (Ipv6RawExtensionHeader.MAX_PAYLOAD_LEN - payload.length) 0 }

/-- The stored payload: the prefix of the buffer of length
6 + header_length * 8. -/
def Ipv6RawExtensionHeader.payload (self : Ipv6RawExtensionHeader) : List Nat :=
  self.payload_buffer.take (6 + self.header_length * 8)

/-- Replacement of the payload with the same validation as the
constructor, translated branch by branch from the source; the pair
returned models the error result together with the record state after
the call (the source mutates in place only in the success branch). -/
def Ipv6RawExtensionHeader.set_payload (self : Ipv6RawExtensionHeader) (payload : List Nat) :
    Except ValueError Unit × Ipv6RawExtensionHeader :=
  if payload.length < Ipv6RawExtensionHeader.MIN_PAYLOAD_LEN then
    (Except.error (ValueError.Ipv6ExtensionPayloadTooSmall payload.length), self)
  else if payload.length > Ipv6RawExtensionHeader.MAX_PAYLOAD_LEN then
    (Except.error (ValueError.Ipv6ExtensionPayloadTooLarge payload.length), self)
  else if (payload.length + 2) % 8 ≠ 0 then
    (Except.error (ValueError.Ipv6ExtensionPayloadLengthUnaligned payload.length), self)
  else
    (Except.ok (),
      { self with
          payload_buffer := payload ++ self.payload_buffer.drop payload.length
          header_length := (payload.length - 6) / 8 })

/-- Serialization of the header: the next header byte, the derived
length byte, then the stored payload. -/
def Ipv6RawExtensionHeader.write (self : Ipv6RawExtensionHeader) : List Nat :=
  self.next_header :: self.header_length :: self.payload

/-- Total on-wire length of the header in bytes. -/
def Ipv6RawExtensionHeader.header_len (self : Ipv6RawExtensionHeader) : Nat :=
  2 + (6 + self.header_length * 8)

/-- The borrowed view over a raw IPv6 extension header: a byte slice
narrowed to the total on-wire length. -/
structure Ipv6RawExtensionHeaderSlice where
  slice : List Nat
  deriving DecidableEq

/-- Validating construction of the extension header view, translated
from the source: require at least 8 bytes, read the length byte at
index 1, compute the total length (length byte + 1) * 8, require at
least that many bytes, and narrow the slice to exactly that length. -/
def Ipv6RawExtensionHeaderSlice.from_slice (slice : List Nat) :
    Except ReadError Ipv6RawExtensionHeaderSlice :=
  if slice.length < 8 then
    Except.error (ReadError.UnexpectedEndOfSlice 8)
  else
    let len := (slice.getD 1 0 + 1) * 8
    if slice.length < len then
      Except.error (ReadError.UnexpectedEndOfSlice len)
    else
      Except.ok { slice := slice.take len }

/-- The next header byte of the view (index 0). -/
def Ipv6RawExtensionHeaderSlice.next_header (self : Ipv6RawExtensionHeaderSlice) : Nat :=
  self.slice.getD 0 0

/-- The payload of the view: everything after the first two bytes of
the narrowed slice. -/
def Ipv6RawExtensionHeaderSlice.payload (self : Ipv6RawExtensionHeaderSlice) : List Nat :=
  self.slice.drop 2

/-- Conversion of the view to an owned header via the validating
constructor; the source unwraps the result, which the safety theorem
below shows is never the error branch for a validly constructed view
(the fallback value models the unreachable panic continuation). -/
def Ipv6RawExtensionHeaderSlice.to_header (self : Ipv6RawExtensionHeaderSlice) :
    Ipv6RawExtensionHeader :=
  (Ipv6RawExtensionHeader.new_raw self.next_header self.payload).toOption.getD
    { next_header := 0, header_length := 0, payload_buffer := [] }

/-- Decode of an owned header from a slice, translated from the source:
construct the validating view, convert it to an owned header, and
return it together with the input bytes that follow the narrowed
view. -/
def Ipv6RawExtensionHeader.from_slice (slice : List Nat) :
    Except ReadError (Ipv6RawExtensionHeader × List Nat) :=
  match Ipv6RawExtensionHeaderSlice.from_slice slice with
  | .error e => .error e
  | .ok s => .ok (s.to_header, slice.drop s.slice.length)

instance {ε α : Type} [DecidableEq ε] [DecidableEq α] : DecidableEq (Except ε α) := fun x y =>
  match x, y with
  | .error a, .error b =>
      if h : a = b then .isTrue (by simp [h]) else .isFalse (by simp [h])
  | .error _, .ok _ => .isFalse (by simp)
  | .ok _, .error _ => .isFalse (by simp)
  | .ok a, .ok b =>
      if h : a = b then .isTrue (by simp [h]) else .isFalse (by simp [h])

/-- The decoded destination unreachable sub-reason always re-encodes the
original code byte. -/
theorem Icmp6DestUnreachable.code_from_bytes (c : Nat) (f : Nat × Nat × Nat × Nat) :
    (Icmp6DestUnreachable.from_bytes c f).code = c := by
  unfold Icmp6DestUnreachable.from_bytes
  split_ifs with h1 h2 h3 h4 h5 h6 h7 <;>
    simp_all [Icmp6DestUnreachable.code, icmpv6.CODE_DST_UNREACH_NOROUTE,
      icmpv6.CODE_DST_UNREACH_PROHIBITED, icmpv6.CODE_DST_UNREACH_BEYONDSCOPE,
      icmpv6.CODE_DST_UNREACH_ADDR, icmpv6.CODE_DST_UNREACH_PORT,
      icmpv6.CODE_DST_UNREACH_SOURCE_ADDRESS_FAILED_POLICY,
      icmpv6.CODE_DST_UNREACH_REJECT_ROUTE_TO_DEST]

/-- The decoded time exceeded code always re-encodes the original byte. -/
theorem Icmp6TimeExceededCode.to_u8_from_u8 (c : Nat) :
    (Icmp6TimeExceededCode.from_u8 c).to_u8 = c := by
  unfold Icmp6TimeExceededCode.from_u8
  split_ifs with h1 h2 <;>
    simp_all [Icmp6TimeExceededCode.to_u8, icmpv6.CODE_TIME_EXCEEDED_HOP_LIMIT_EXCEEDED,
      icmpv6.CODE_TIME_EXCEEDED_FRAGMENT_REASSEMBLY_TIME_EXCEEDED]

/-- Big-endian u32 decode then encode is the identity on byte quadruples. -/
theorem u32_be_bytes_roundtrip (a b c d : Nat) (ha : a < 256) (hb : b < 256)
    (hc : c < 256) (hd : d < 256) :
    u32_to_be_bytes (u32_from_be_bytes (a, b, c, d)) = (a, b, c, d) := by
  simp only [u32_from_be_bytes, u32_to_be_bytes, Prod.mk.injEq]
  refine ⟨?_, ?_, ?_, ?_⟩ <;> omega

/-- Echo header decode then encode is the identity on byte quadruples. -/
theorem IcmpEchoHeader.to_bytes_from_bytes (a b c d : Nat) (ha : a < 256) (hb : b < 256)
    (hc : c < 256) (hd : d < 256) :
    (IcmpEchoHeader.from_bytes (a, b, c, d)).to_bytes = (a, b, c, d) := by
  simp only [IcmpEchoHeader.from_bytes, IcmpEchoHeader.to_bytes, Prod.mk.injEq]
  refine ⟨?_, ?_, ?_, ?_⟩ <;> omega

/-- C1, counterexample: the universal round-trip law fails as stated.
At the byte triple (1, 0, [1, 0, 0, 0]) the decode yields the named
destination unreachable variant NoRoute, whose re-encode zero-fills
the unused four bytes, so the triple is not reproduced. -/
theorem icmp6Type_toBytes_fromBytes_not_id :
    (Icmp6Type.from_bytes 1 0 (1, 0, 0, 0)).to_bytes ≠ (1, 0, (1, 0, 0, 0)) := by
  decide

/-- C1, amended: decode then encode reproduces the byte triple exactly
for every triple that is wire-canonical for its type value: the code
byte must be 0 when the type is 2 (packet too big), 128 or 129 (echo),
and the four type-specific bytes must be zero when the type is 1
(destination unreachable) or 3 (time exceeded); for every other type
value, including the parameter problem type 4 and all raw fallback
types, the round trip is unconditional. -/
theorem icmp6Type_toBytes_fromBytes_roundtrip_canonical (t c : Nat)
    (f : Nat × Nat × Nat × Nat) (ht : t < 256) (hc : c < 256)
    (hf1 : f.1 < 256) (hf2 : f.2.1 < 256) (hf3 : f.2.2.1 < 256) (hf4 : f.2.2.2 < 256)
    (hcz : t = 2 ∨ t = 128 ∨ t = 129 → c = 0)
    (hfz : t = 1 ∨ t = 3 → f = (0, 0, 0, 0)) :
    (Icmp6Type.from_bytes t c f).to_bytes = (t, c, f) := by
  obtain ⟨f1, f2, f3, f4⟩ := f
  simp only at hf1 hf2 hf3 hf4
  unfold Icmp6Type.from_bytes
  split_ifs with h1 h2 h3 h4 h5 h6
  · have hz := hfz (Or.inl (by simpa [icmpv6.TYPE_DST_UNREACH] using h1))
    simp only [Prod.mk.injEq] at hz
    obtain ⟨z1, z2, z3, z4⟩ := hz
    subst h1 z1 z2 z3 z4
    simp [Icmp6Type.to_bytes, Icmp6DestUnreachable.code_from_bytes]
  · have hz := hcz (Or.inl (by simpa [icmpv6.TYPE_PACKET_TOO_BIG] using h2))
    subst h2 hz
    simp [Icmp6Type.to_bytes, u32_be_bytes_roundtrip f1 f2 f3 f4 hf1 hf2 hf3 hf4]
  · have hz := hfz (Or.inr (by simpa [icmpv6.TYPE_TIME_EXCEEDED] using h3))
    simp only [Prod.mk.injEq] at hz
    obtain ⟨z1, z2, z3, z4⟩ := hz
    subst h3 z1 z2 z3 z4
    simp [Icmp6Type.to_bytes, Icmp6TimeExceededCode.to_u8_from_u8]
  · subst h4
    simp [Icmp6Type.to_bytes, Icmp6ParameterProblemCode.from_u8,
      Icmp6ParameterProblemCode.to_u8,
      u32_be_bytes_roundtrip f1 f2 f3 f4 hf1 hf2 hf3 hf4]
  · have hz := hcz (Or.inr (Or.inl (by simpa [icmpv6.TYPE_ECHO_REQUEST] using h5)))
    subst h5 hz
    simp [Icmp6Type.to_bytes, IcmpEchoHeader.to_bytes_from_bytes f1 f2 f3 f4 hf1 hf2 hf3 hf4]
  · have hz := hcz (Or.inr (Or.inr (by simpa [icmpv6.TYPE_ECHO_REPLY] using h6)))
    subst h6 hz
    simp [Icmp6Type.to_bytes, IcmpEchoHeader.to_bytes_from_bytes f1 f2 f3 f4 hf1 hf2 hf3 hf4]
  · simp [Icmp6Type.to_bytes]

/-- C1, witness: the amended round-trip theorem applied at the concrete
raw fallback triple (200, 7, [9, 9, 9, 9]). -/
theorem icmp6Type_roundtrip_canonical_witness :
    (Icmp6Type.from_bytes 200 7 (9, 9, 9, 9)).to_bytes = (200, 7, (9, 9, 9, 9)) :=
  icmp6Type_toBytes_fromBytes_roundtrip_canonical 200 7 (9, 9, 9, 9)
    (by decide) (by decide) (by decide) (by decide) (by decide) (by decide)
    (by decide) (by decide)

/-- C2: the code accessor of the ICMPv6 header view does not expose the
second byte of the header. On the accepted 8-byte slice
[1, 4, 0, 0, 0, 0, 0, 0] (type byte 1, code byte 4) the accessor
returns 1, the byte at index 0 (the type field), while the byte at
index 1 (the wire code field) is 4. -/
theorem icmp6HeaderSlice_icmp_code_reads_type_byte :
    Icmp6HeaderSlice.from_slice [1, 4, 0, 0, 0, 0, 0, 0] =
      Except.ok { slice := [1, 4, 0, 0, 0, 0, 0, 0] } ∧
    Icmp6HeaderSlice.icmp_code { slice := [1, 4, 0, 0, 0, 0, 0, 0] } = 1 ∧
    List.getD [1, 4, 0, 0, 0, 0, 0, 0] 1 0 = 4 := by
  decide

/-- A payload accepted by the validating constructor is returned intact
by the payload accessor of the constructed header. -/
theorem Ipv6RawExtensionHeader.payload_of_valid (next : Nat) (p : List Nat)
    (h6 : 6 ≤ p.length) (hmod : (p.length + 2) % 8 = 0) :
    Ipv6RawExtensionHeader.payload
      { next_header := next, header_length := (p.length - 6) / 8
        payload_buffer :=
          p ++ List.replicate (Ipv6RawExtensionHeader.MAX_PAYLOAD_LEN - p.length) 0 } = p := by
  unfold Ipv6RawExtensionHeader.payload
  simp only []
  have h : 6 + (p.length - 6) / 8 * 8 = p.length := by omega
  rw [h, List.take_left' rfl]

/-- On a payload satisfying all three bounds the validating constructor
returns exactly the header with the derived length byte and the padded
fixed-capacity buffer. -/
theorem Ipv6RawExtensionHeader.new_raw_ok (next : Nat) (p : List Nat)
    (h6 : 6 ≤ p.length) (h2046 : p.length ≤ 2046) (hmod : (p.length + 2) % 8 = 0) :
    Ipv6RawExtensionHeader.new_raw next p =
      Except.ok
        { next_header := next, header_length := (p.length - 6) / 8
          payload_buffer :=
            p ++ List.replicate (Ipv6RawExtensionHeader.MAX_PAYLOAD_LEN - p.length) 0 } := by
  unfold Ipv6RawExtensionHeader.new_raw
  rw [if_neg (by simp only [Ipv6RawExtensionHeader.MIN_PAYLOAD_LEN]; omega),
    if_neg (by simp only [Ipv6RawExtensionHeader.MAX_PAYLOAD_LEN]; omega),
    if_neg (by simpa using hmod)]

/-- C6: the validating constructor succeeds exactly on payload lengths
in [6, 2046] with length + 2 divisible by 8; each violated bound
produces its distinct error value carrying the offending length (the
too-small check is performed first, then too-large, then alignment);
and on success the stored payload is returned intact, so its length
equals the input length. -/
theorem ipv6RawExtensionHeader_new_raw_spec (next : Nat) (p : List Nat) :
    (exOk (Ipv6RawExtensionHeader.new_raw next p) = true ↔
      6 ≤ p.length ∧ p.length ≤ 2046 ∧ (p.length + 2) % 8 = 0) ∧
    (p.length < 6 → Ipv6RawExtensionHeader.new_raw next p =
      Except.error (ValueError.Ipv6ExtensionPayloadTooSmall p.length)) ∧
    (2046 < p.length → Ipv6RawExtensionHeader.new_raw next p =
      Except.error (ValueError.Ipv6ExtensionPayloadTooLarge p.length)) ∧
    (6 ≤ p.length → p.length ≤ 2046 → (p.length + 2) % 8 ≠ 0 →
      Ipv6RawExtensionHeader.new_raw next p =
        Except.error (ValueError.Ipv6ExtensionPayloadLengthUnaligned p.length)) ∧
    (6 ≤ p.length → p.length ≤ 2046 → (p.length + 2) % 8 = 0 →
      (Ipv6RawExtensionHeader.new_raw next p).map Ipv6RawExtensionHeader.payload =
        Except.ok p ∧
      (Ipv6RawExtensionHeader.new_raw next p).map
        (fun h => (Ipv6RawExtensionHeader.payload h).length) = Except.ok p.length) := by
  refine ⟨?_, ?_, ?_, ?_, ?_⟩
  · unfold Ipv6RawExtensionHeader.new_raw
    split_ifs with h1 h2 h3 <;>
      simp_all [exOk, Ipv6RawExtensionHeader.MIN_PAYLOAD_LEN,
        Ipv6RawExtensionHeader.MAX_PAYLOAD_LEN]
  · intro h
    unfold Ipv6RawExtensionHeader.new_raw
    rw [if_pos (by simp only [Ipv6RawExtensionHeader.MIN_PAYLOAD_LEN]; omega)]
  · intro h
    unfold Ipv6RawExtensionHeader.new_raw
    rw [if_neg (by simp only [Ipv6RawExtensionHeader.MIN_PAYLOAD_LEN]; omega),
      if_pos (by simp only [Ipv6RawExtensionHeader.MAX_PAYLOAD_LEN]; omega)]
  · intro h6 h2046 hmod
    unfold Ipv6RawExtensionHeader.new_raw
    rw [if_neg (by simp only [Ipv6RawExtensionHeader.MIN_PAYLOAD_LEN]; omega),
      if_neg (by simp only [Ipv6RawExtensionHeader.MAX_PAYLOAD_LEN]; omega),
      if_pos (by simpa using hmod)]
  · intro h6 h2046 hmod
    rw [Ipv6RawExtensionHeader.new_raw_ok next p h6 h2046 hmod]
    constructor <;>
      simp [Except.map, Ipv6RawExtensionHeader.payload_of_valid next p h6 hmod]

/-- C6, witness: the constructor specification applied at a six-byte
payload, showing a successful construction returning the payload
intact. -/
theorem ipv6RawExtensionHeader_new_raw_spec_witness :
    6 ≤ (List.replicate 6 7).length ∧
    (Ipv6RawExtensionHeader.new_raw 0 (List.replicate 6 7)).map
      Ipv6RawExtensionHeader.payload = Except.ok (List.replicate 6 7) :=
  ⟨by decide,
    ((ipv6RawExtensionHeader_new_raw_spec 0 (List.replicate 6 7)).2.2.2.2
      (by decide) (by decide) (by decide)).1⟩

/-- C7: the validating view constructor fails with an unexpected end of
slice error requiring 8 bytes on any slice shorter than 8 bytes; on a
longer slice it computes the total length (byte at index 1 plus one)
times 8, fails with an unexpected end of slice error requiring that
total when the slice is shorter, and otherwise succeeds with the view
narrowed to exactly the first total bytes. -/
theorem ipv6RawExtensionHeaderSlice_from_slice_spec (s : List Nat) :
    (s.length < 8 → Ipv6RawExtensionHeaderSlice.from_slice s =
      Except.error (ReadError.UnexpectedEndOfSlice 8)) ∧
    (8 ≤ s.length → s.length < (s.getD 1 0 + 1) * 8 →
      Ipv6RawExtensionHeaderSlice.from_slice s =
        Except.error (ReadError.UnexpectedEndOfSlice ((s.getD 1 0 + 1) * 8))) ∧
    (8 ≤ s.length → (s.getD 1 0 + 1) * 8 ≤ s.length →
      Ipv6RawExtensionHeaderSlice.from_slice s =
        Except.ok { slice := s.take ((s.getD 1 0 + 1) * 8) }) := by
  refine ⟨?_, ?_, ?_⟩ <;> intros <;> unfold Ipv6RawExtensionHeaderSlice.from_slice
  · rw [if_pos (by omega)]
  · rw [if_neg (by omega)]
    simp only []
    rw [if_pos (by omega)]
  · rw [if_neg (by omega)]
    simp only []
    rw [if_neg (by omega)]

/-- C7, witness: the view constructor specification applied at the
ten-byte slice [6, 1, 0, ..., 0], whose length byte claims a total of
16 bytes, yielding the error that requires at least 16 bytes. -/
theorem ipv6RawExtensionHeaderSlice_from_slice_spec_witness :
    8 ≤ ([6, 1, 0, 0, 0, 0, 0, 0, 0, 0] : List Nat).length ∧
    Ipv6RawExtensionHeaderSlice.from_slice [6, 1, 0, 0, 0, 0, 0, 0, 0, 0] =
      Except.error (ReadError.UnexpectedEndOfSlice 16) :=
  ⟨by decide,
    by
      have h := (ipv6RawExtensionHeaderSlice_from_slice_spec
        [6, 1, 0, 0, 0, 0, 0, 0, 0, 0]).2.1 (by decide) (by decide)
      simpa using h⟩

/-- C8: when the payload setter rejects its argument the record is left
completely unchanged: the resulting state equals the original record,
so the next header and the stored payload are identical before and
after the failed call. -/
theorem ipv6RawExtensionHeader_set_payload_error_unchanged
    (h : Ipv6RawExtensionHeader) (p : List Nat) (e : ValueError)
    (he : (Ipv6RawExtensionHeader.set_payload h p).1 = Except.error e) :
    (Ipv6RawExtensionHeader.set_payload h p).2 = h ∧
    ((Ipv6RawExtensionHeader.set_payload h p).2).next_header = h.next_header ∧
    Ipv6RawExtensionHeader.payload ((Ipv6RawExtensionHeader.set_payload h p).2) =
      Ipv6RawExtensionHeader.payload h := by
  unfold Ipv6RawExtensionHeader.set_payload at he ⊢
  split_ifs at he ⊢ <;> simp_all

/-- C8, witness: the setter applied to a concrete record and an empty
payload (rejected as too small) leaves the record unchanged. -/
theorem ipv6RawExtensionHeader_set_payload_error_unchanged_witness :
    (Ipv6RawExtensionHeader.set_payload
        { next_header := 0, header_length := 0, payload_buffer := List.replicate 2046 0 }
        []).2 =
      { next_header := 0, header_length := 0, payload_buffer := List.replicate 2046 0 } :=
  (ipv6RawExtensionHeader_set_payload_error_unchanged
    { next_header := 0, header_length := 0, payload_buffer := List.replicate 2046 0 }
    [] (ValueError.Ipv6ExtensionPayloadTooSmall 0) (by decide)).1

/-- C3: for every view accepted by the validating constructor (over a
slice of genuine bytes), the validating record constructor applied to
the view fields succeeds, so the internal unwrap in the conversion to
an owned header is unreachable and the conversion returns exactly the
successfully constructed record. -/
theorem ipv6RawExtensionHeaderSlice_to_header_ok (s : List Nat) (hb : ∀ b ∈ s, b < 256)
    (v : Ipv6RawExtensionHeaderSlice)
    (hv : Ipv6RawExtensionHeaderSlice.from_slice s = Except.ok v) :
    Ipv6RawExtensionHeader.new_raw v.next_header v.payload = Except.ok v.to_header := by
  unfold Ipv6RawExtensionHeaderSlice.from_slice at hv
  by_cases h1 : s.length < 8
  · rw [if_pos h1] at hv
    exact absurd hv (by simp)
  · rw [if_neg h1] at hv
    simp only [] at hv
    by_cases h2 : s.length < (s.getD 1 0 + 1) * 8
    · rw [if_pos h2] at hv
      exact absurd hv (by simp)
    · rw [if_neg h2] at hv
      simp only [Except.ok.injEq] at hv
      have hb1 : s.getD 1 0 < 256 := by
        have h1lt : 1 < s.length := by omega
        rw [List.getD_eq_getElem s 0 h1lt]
        exact hb _ (List.getElem_mem h1lt)
      have hplen : v.payload.length = (s.getD 1 0 + 1) * 8 - 2 := by
        rw [← hv]
        simp only [Ipv6RawExtensionHeaderSlice.payload, List.length_drop, List.length_take]
        omega
      have h6 : 6 ≤ v.payload.length := by rw [hplen]; omega
      have h2046 : v.payload.length ≤ 2046 := by rw [hplen]; omega
      have hmod : (v.payload.length + 2) % 8 = 0 := by rw [hplen]; omega
      have hok := Ipv6RawExtensionHeader.new_raw_ok v.next_header v.payload h6 h2046 hmod
      rw [hok]
      unfold Ipv6RawExtensionHeaderSlice.to_header
      rw [hok]
      simp [Except.toOption]

/-- C3, witness: the conversion theorem applied at the all-zero 8-byte
slice, whose accepted view converts to a successfully constructed
owned header. -/
theorem ipv6RawExtensionHeaderSlice_to_header_ok_witness :
    Ipv6RawExtensionHeader.new_raw
      (Ipv6RawExtensionHeaderSlice.next_header { slice := [0, 0, 0, 0, 0, 0, 0, 0] })
      (Ipv6RawExtensionHeaderSlice.payload { slice := [0, 0, 0, 0, 0, 0, 0, 0] }) =
      Except.ok (Ipv6RawExtensionHeaderSlice.to_header { slice := [0, 0, 0, 0, 0, 0, 0, 0] }) :=
  ipv6RawExtensionHeaderSlice_to_header_ok [0, 0, 0, 0, 0, 0, 0, 0] (by decide)
    { slice := [0, 0, 0, 0, 0, 0, 0, 0] } (by decide)

/-- C9: decoding the serialization of any record produced by the
validating constructor yields that record back together with exactly
the bytes that followed the serialized header, untouched; with no
trailing bytes the remainder is empty. -/
theorem ipv6RawExtensionHeader_write_from_slice_roundtrip (next : Nat) (p : List Nat)
    (r : Ipv6RawExtensionHeader) (hr : Ipv6RawExtensionHeader.new_raw next p = Except.ok r)
    (extra : List Nat) :
    Ipv6RawExtensionHeader.from_slice (Ipv6RawExtensionHeader.write r ++ extra) =
      Except.ok (r, extra) := by
  unfold Ipv6RawExtensionHeader.new_raw at hr
  split_ifs at hr with h1 h2 h3
  simp only [Ipv6RawExtensionHeader.MIN_PAYLOAD_LEN, not_lt] at h1
  simp only [Ipv6RawExtensionHeader.MAX_PAYLOAD_LEN, gt_iff_lt, not_lt] at h2
  simp only [ne_eq, Decidable.not_not] at h3
  simp only [Except.ok.injEq] at hr
  have h2046 : p.length ≤ 2046 := by omega
  have hpay : Ipv6RawExtensionHeader.payload r = p := by
    rw [← hr]
    exact Ipv6RawExtensionHeader.payload_of_valid next p h1 h3
  have hnext : r.next_header = next := by rw [← hr]
  have hhl : r.header_length = (p.length - 6) / 8 := by rw [← hr]
  have hwrite : Ipv6RawExtensionHeader.write r =
      next :: (p.length - 6) / 8 :: p := by
    unfold Ipv6RawExtensionHeader.write
    rw [hpay, hnext, hhl]
  have e1 : ((p.length - 6) / 8 + 1) * 8 = p.length + 2 := by omega
  have e2 : (next :: (p.length - 6) / 8 :: (p ++ extra)).take (p.length + 2) =
      next :: (p.length - 6) / 8 :: p := by
    have hs : p.length + 2 = (p.length + 1) + 1 := rfl
    rw [hs, List.take_succ_cons, List.take_succ_cons, List.take_left' rfl]
  have e3 : (next :: (p.length - 6) / 8 :: (p ++ extra)).drop (p.length + 2) = extra := by
    have hs : p.length + 2 = (p.length + 1) + 1 := rfl
    rw [hs, List.drop_succ_cons, List.drop_succ_cons, List.drop_left' rfl]
  have e4 : Ipv6RawExtensionHeaderSlice.to_header
      { slice := next :: (p.length - 6) / 8 :: p } = r := by
    unfold Ipv6RawExtensionHeaderSlice.to_header
    have hnh : Ipv6RawExtensionHeaderSlice.next_header
        { slice := next :: (p.length - 6) / 8 :: p } = next := by
      simp [Ipv6RawExtensionHeaderSlice.next_header]
    have hpl : Ipv6RawExtensionHeaderSlice.payload
        { slice := next :: (p.length - 6) / 8 :: p } = p := by
      simp [Ipv6RawExtensionHeaderSlice.payload]
    rw [hnh, hpl, Ipv6RawExtensionHeader.new_raw_ok next p h1 h2046 h3, ← hr]
    simp [Except.toOption]
  unfold Ipv6RawExtensionHeader.from_slice Ipv6RawExtensionHeaderSlice.from_slice
  rw [hwrite]
  simp only [List.cons_append]
  rw [if_neg (by simp only [List.length_cons, List.length_append]; omega)]
  simp only [List.getD_cons_succ, List.getD_cons_zero]
  rw [e1, if_neg (by simp only [List.length_cons, List.length_append]; omega)]
  simp only [e2, e4]
  have hslen : (next :: (p.length - 6) / 8 :: p).length = p.length + 2 := by
    simp only [List.length_cons]
  rw [hslen, e3]

/-- C9, witness: the round trip applied to the record built from a
six-byte payload with three trailing bytes, which are returned
untouched as the remainder. -/
theorem ipv6RawExtensionHeader_write_from_slice_roundtrip_witness :
    Ipv6RawExtensionHeader.from_slice
      (Ipv6RawExtensionHeader.write
        { next_header := 5, header_length := 0
          payload_buffer := List.replicate 6 7 ++ List.replicate 2040 0 } ++ [1, 2, 3]) =
      Except.ok
        ({ next_header := 5, header_length := 0
           payload_buffer := List.replicate 6 7 ++ List.replicate 2040 0 }, [1, 2, 3]) :=
  ipv6RawExtensionHeader_write_from_slice_roundtrip 5 (List.replicate 6 7)
    { next_header := 5, header_length := 0
      payload_buffer := List.replicate 6 7 ++ List.replicate 2040 0 }
    (by
      rw [Ipv6RawExtensionHeader.new_raw_ok 5 (List.replicate 6 7) (by decide) (by decide)
        (by decide)]
      rfl)
    [1, 2, 3]

/-- The 16-bit word sum of a concatenation splits when the first part
pairs up evenly. -/
theorem wordSum_append : ∀ (xs ys : List Nat), xs.length % 2 = 0 →
    wordSum (xs ++ ys) = wordSum xs + wordSum ys
  | [], ys, _ => by simp [wordSum]
  | [a], ys, h => by simp at h
  | a :: b :: rest, ys, h => by
      have ih := wordSum_append rest ys (by
        simp only [List.length_cons] at h
        omega)
      show a * 256 + b + wordSum (rest ++ ys) = a * 256 + b + wordSum rest + wordSum ys
      omega

/-- The checksum computation succeeds whenever the payload length is
within the guard bound. -/
theorem calc_checksum_ok_of_le (self : Icmp6Header) (ip : Ipv6Header) (payload : List Nat)
    (h : payload.length ≤ Icmp6Header.MAX_PAYLOAD_LENGTH) :
    exOk (Icmp6Header.calc_checksum_ipv6 self ip payload) = true := by
  unfold Icmp6Header.calc_checksum_ipv6
  rw [if_neg (by omega)]
  rfl

/-- Definition following the spec words for the checksum algorithm
(section 4.5): the ones complement 16-bit word sum over the flat byte
sequence made of the source address, the destination address, the two
bytes {0, protocol 58}, the two-byte big-endian message length
(payload length + 8, reduced to 16 bits), the two bytes {type, code},
the four type-specific bytes and the payload, finalized by the
complement and the big-endian conversion. -/
def calc_checksum_ipv6_spec (self : Icmp6Header) (ip : Ipv6Header) (payload : List Nat) : Nat :=
  u16_to_be (onesComplement (wordSum (
    ip.source ++ (ip.destination ++ ([0, ip_number.IPV6_ICMP] ++
      ([(payload.length + 8) % 65536 / 256, (payload.length + 8) % 65536 % 256] ++
        ([self.icmp_type.to_bytes.1, self.icmp_type.to_bytes.2.1] ++
          ([self.icmp_type.to_bytes.2.2.1, self.icmp_type.to_bytes.2.2.2.1,
            self.icmp_type.to_bytes.2.2.2.2.1, self.icmp_type.to_bytes.2.2.2.2.2] ++
            payload))))))))

/-- C4: whenever the guard admits the payload, the checksum computation
returns exactly the spec-side value: the ones complement accumulation,
in order, of the source address, the destination address, the word
{0, 58}, the big-endian message length word (payload length + 8), the
word {type, code}, the four type-specific bytes and the payload. -/
theorem calc_checksum_ipv6_agrees_with_spec (self : Icmp6Header) (ip : Ipv6Header)
    (payload : List Nat) (hs : ip.source.length = 16) (hd : ip.destination.length = 16)
    (hp : payload.length ≤ Icmp6Header.MAX_PAYLOAD_LENGTH) :
    Icmp6Header.calc_checksum_ipv6 self ip payload =
      Except.ok (calc_checksum_ipv6_spec self ip payload) := by
  unfold Icmp6Header.calc_checksum_ipv6 calc_checksum_ipv6_spec
  rw [if_neg (by omega)]
  simp only [Except.ok.injEq]
  rw [wordSum_append _ _ (by omega), wordSum_append _ _ (by omega),
    wordSum_append _ _ (by simp), wordSum_append _ _ (by simp),
    wordSum_append _ _ (by simp), wordSum_append _ _ (by simp)]
  simp only [add_16bytes, add_2bytes, add_4bytes, add_slice, wordSum,
    ip_number.IPV6_ICMP, Icmp6Header.SERIALIZED_SIZE, u16_to_be]
  congr 1
  omega

/-- C4, witness: the agreement theorem applied at a concrete packet too
big header, all-zero addresses and a three-byte payload. -/
theorem calc_checksum_ipv6_agrees_with_spec_witness :
    Icmp6Header.calc_checksum_ipv6 { icmp_type := .PacketTooBig 1488, icmp_chksum := 0 }
      { source := List.replicate 16 0, destination := List.replicate 16 0 } [1, 2, 3] =
      Except.ok (calc_checksum_ipv6_spec
        { icmp_type := .PacketTooBig 1488, icmp_chksum := 0 }
        { source := List.replicate 16 0, destination := List.replicate 16 0 } [1, 2, 3]) :=
  calc_checksum_ipv6_agrees_with_spec
    { icmp_type := .PacketTooBig 1488, icmp_chksum := 0 }
    { source := List.replicate 16 0, destination := List.replicate 16 0 } [1, 2, 3]
    (by simp) (by simp) (by decide)

/-- C5, counterexample: at the payload length 4294967283 the claim
condition holds (4294967283 + 8 exceeds the u32 maximum minus the
ICMPv4 header size), yet the computation succeeds, because the code
compares the payload length itself, not the payload length plus 8,
against the guard constant. -/
theorem calc_checksum_ipv6_guard_counterexample :
    exOk (Icmp6Header.calc_checksum_ipv6
      { icmp_type := .Raw 0 0 (0, 0, 0, 0), icmp_chksum := 0 }
      { source := List.replicate 16 0, destination := List.replicate 16 0 }
      (List.replicate 4294967283 0)) = true ∧
    u32.MAX - Icmp4Header.SERIALIZED_SIZE < 4294967283 + 8 := by
  constructor
  · exact calc_checksum_ok_of_le _ _ _ (by
      simp only [List.length_replicate, Icmp6Header.MAX_PAYLOAD_LENGTH, u32.MAX,
        Icmp4Header.SERIALIZED_SIZE]
      omega)
  · decide

/-- C5, amended: the computation fails, with the value error carrying
the payload length, exactly when the payload length itself exceeds the
u32 maximum minus the ICMPv4 header size, equivalently when the
payload length plus 8 exceeds the u32 maximum; for every payload
length at or below that bound it succeeds. -/
theorem calc_checksum_ipv6_error_iff (self : Icmp6Header) (ip : Ipv6Header)
    (payload : List Nat) :
    (Icmp6Header.calc_checksum_ipv6 self ip payload =
        Except.error (ValueError.Ipv6PayloadLengthTooLarge payload.length) ↔
      u32.MAX < payload.length + 8) ∧
    (payload.length + 8 ≤ u32.MAX →
      exOk (Icmp6Header.calc_checksum_ipv6 self ip payload) = true) := by
  constructor
  · by_cases h : Icmp6Header.MAX_PAYLOAD_LENGTH < payload.length
    · unfold Icmp6Header.calc_checksum_ipv6
      rw [if_pos h]
      simp only [true_iff]
      simp only [Icmp6Header.MAX_PAYLOAD_LENGTH, u32.MAX, Icmp4Header.SERIALIZED_SIZE] at h ⊢
      omega
    · unfold Icmp6Header.calc_checksum_ipv6
      rw [if_neg h]
      constructor
      · intro heq
        exact absurd heq (by simp)
      · intro hlt
        exfalso
        simp only [Icmp6Header.MAX_PAYLOAD_LENGTH, u32.MAX,
          Icmp4Header.SERIALIZED_SIZE] at h hlt
        omega
  · intro h
    exact calc_checksum_ok_of_le self ip payload (by
      simp only [Icmp6Header.MAX_PAYLOAD_LENGTH, Icmp4Header.SERIALIZED_SIZE]
      omega)

/-- C5, witness: the amended theorem applied at an empty payload, whose
checksum computation succeeds. -/
theorem calc_checksum_ipv6_error_iff_witness :
    exOk (Icmp6Header.calc_checksum_ipv6
      { icmp_type := .Raw 0 0 (0, 0, 0, 0), icmp_chksum := 0 }
      { source := List.replicate 16 0, destination := List.replicate 16 0 } []) = true :=
  (calc_checksum_ipv6_error_iff
    { icmp_type := .Raw 0 0 (0, 0, 0, 0), icmp_chksum := 0 }
    { source := List.replicate 16 0, destination := List.replicate 16 0 } []).2 (by decide)

/-- C10: for every payload length above 65527 that the u32-based guard
still admits, the computation returns a checksum (no error) in which
the pseudo header length word folded into the accumulator is
(payload length + 8) reduced modulo 2 ^ 16, a value that genuinely
differs from payload length + 8: the 16-bit cast silently wraps. -/
theorem calc_checksum_ipv6_length_word_wraps (self : Icmp6Header) (ip : Ipv6Header)
    (payload : List Nat) (h1 : 65527 < payload.length)
    (h2 : payload.length ≤ Icmp6Header.MAX_PAYLOAD_LENGTH) :
    Icmp6Header.calc_checksum_ipv6 self ip payload =
      Except.ok (u16_to_be (onesComplement (
        add_slice
          (add_4bytes
            (add_2bytes
              (add_2bytes
                (add_2bytes
                  (add_16bytes (add_16bytes 0 ip.source) ip.destination)
                  0 ip_number.IPV6_ICMP)
                ((payload.length + 8) % 65536 / 256) ((payload.length + 8) % 65536 % 256))
              self.icmp_type.to_bytes.1 self.icmp_type.to_bytes.2.1)
            self.icmp_type.to_bytes.2.2)
          payload))) ∧
    (payload.length + 8) % 65536 ≠ payload.length + 8 := by
  constructor
  · unfold Icmp6Header.calc_checksum_ipv6
    rw [if_neg (by omega)]
    rfl
  · omega

/-- C10, witness: the wrap theorem applied at an all-zero payload of
length 65528, for which the computation succeeds and the folded length
word is (65528 + 8) reduced modulo 2 ^ 16. -/
theorem calc_checksum_ipv6_length_word_wraps_witness :
    Icmp6Header.calc_checksum_ipv6
      { icmp_type := .Raw 0 0 (0, 0, 0, 0), icmp_chksum := 0 }
      { source := List.replicate 16 0, destination := List.replicate 16 0 }
      (List.replicate 65528 0) =
      Except.ok (u16_to_be (onesComplement (
        add_slice
          (add_4bytes
            (add_2bytes
              (add_2bytes
                (add_2bytes
                  (add_16bytes (add_16bytes 0 (List.replicate 16 0)) (List.replicate 16 0))
                  0 ip_number.IPV6_ICMP)
                (((List.replicate 65528 (0 : Nat)).length + 8) % 65536 / 256)
                (((List.replicate 65528 (0 : Nat)).length + 8) % 65536 % 256))
              (Icmp6Type.Raw 0 0 (0, 0, 0, 0)).to_bytes.1
              (Icmp6Type.Raw 0 0 (0, 0, 0, 0)).to_bytes.2.1)
            (Icmp6Type.Raw 0 0 (0, 0, 0, 0)).to_bytes.2.2)
          (List.replicate 65528 0)))) ∧
    ((List.replicate 65528 (0 : Nat)).length + 8) % 65536 ≠
      (List.replicate 65528 (0 : Nat)).length + 8 :=
  calc_checksum_ipv6_length_word_wraps
    { icmp_type := .Raw 0 0 (0, 0, 0, 0), icmp_chksum := 0 }
    { source := List.replicate 16 0, destination := List.replicate 16 0 }
    (List.replicate 65528 0)
    (by simp only [List.length_replicate]; omega)
    (by
      simp only [List.length_replicate, Icmp6Header.MAX_PAYLOAD_LENGTH, u32.MAX,
        Icmp4Header.SERIALIZED_SIZE]
      omega)
